import Mathlib

/-! Verification of the aviary environmental-control core
(`src/models/device.py`, `src/models/sensor_data.py`, `src/models/config.py`,
`src/actuators/base.py`, `src/actuators/devices.py`, `src/actuators/controller.py`,
`src/core/control.py`, `src/sensors/reader.py`).

Modelling conventions:
- Python floats are modelled as rationals (`ℚ`); all the control logic is
  threshold comparison, `min`/`max`, and one affine expression, so the order
  structure is what matters.
- `datetime` timestamps are modelled as natural numbers; `datetime.now()`
  becomes an explicit `now : Nat` argument.
- A Python constructor whose `__post_init__` may raise `ValueError` is
  modelled as a checked builder returning `Except ValueError _`.
- Raising code is modelled with `Except`; a caught-and-logged exception is a
  handled `.error` branch (logging itself has no observable effect here).
-/

namespace Aviary

/-- Python `ValueError` payload: the message string. -/
abbrev ValueError := String

/-- `DeviceError` from `src/models/device.py`: device id plus message. -/
structure DeviceError where
  device_id : String
  message : String
deriving DecidableEq, Repr

/-- `DeviceType` enum from `src/models/device.py`. -/
inductive DeviceType where
  | EXHAUST_FAN
  | INLET
  | CURTAIN
  | HEATER
  | NEBULIZER
  | ALARM
deriving DecidableEq, Repr

/-- `DeviceState` enum from `src/models/device.py`. -/
inductive DeviceState where
  | OFF
  | ON
  | ERROR
  | PARTIAL
deriving DecidableEq, Repr

/-- `DeviceStatus` dataclass fields from `src/models/device.py`. -/
structure DeviceStatus where
  device_id : String
  device_type : DeviceType
  state : DeviceState
  value : Option ℚ
  last_updated : Nat
  error_message : Option String
deriving DecidableEq, Repr

/-- Python truthiness of an `Optional[str]`: `None` and `""` are falsy
(`not self.error_message` in `DeviceStatus._validate_status`). -/
def strFalsy : Option String → Bool
  | none => true
  | some s => s = ""

/-- `DeviceStatus._validate_status` from `src/models/device.py`, run by
`__post_init__`: ERROR requires a (truthy) message, PARTIAL requires a value,
any present value must lie in [0, 100]. -/
def DeviceStatus.validate_status (d : DeviceStatus) : Except ValueError Unit :=
  if d.state = DeviceState.ERROR ∧ strFalsy d.error_message then
    .error "Error state requires an error message"
  else if d.state = DeviceState.PARTIAL ∧ d.value = none then
    .error "Partial state requires a value"
  else
    match d.value with
    | some v =>
        if 0 ≤ v ∧ v ≤ 100 then .ok ()
        else .error ("Invalid device value: " ++ toString v)
    | none => .ok ()

/-- `DeviceCommand` dataclass fields from `src/models/device.py`. -/
structure DeviceCommand where
  device_id : String
  action : DeviceState
  value : Option ℚ
  timestamp : Nat
deriving DecidableEq, Repr

/-- `DeviceCommand.__post_init__` / `_validate_command`: checked construction
of a `DeviceCommand` (PARTIAL requires a value; any present value in [0,100]). -/
def DeviceCommand.make (device_id : String) (action : DeviceState)
    (value : Option ℚ) (timestamp : Nat) : Except ValueError DeviceCommand :=
  if action = DeviceState.PARTIAL ∧ value = none then
    .error "Partial state command requires a value"
  else
    match value with
    | some v =>
        if 0 ≤ v ∧ v ≤ 100 then .ok ⟨device_id, action, value, timestamp⟩
        else .error ("Invalid command value: " ++ toString v)
    | none => .ok ⟨device_id, action, value, timestamp⟩

/-- `SensorReading` dataclass fields from `src/models/sensor_data.py`. -/
structure SensorReading where
  timestamp : Nat
  temperature : ℚ
  external_temp : ℚ
  humidity : ℚ
  co2_level : ℚ
  ammonia_level : ℚ
  pressure : ℚ
  power_ok : Bool
  sensor_id : String
deriving DecidableEq, Repr

/-- `SensorReading._validate_temperature`: -10 to 50 °C. -/
def SensorReading.validate_temperature (r : SensorReading) : Except ValueError Unit :=
  if -10 ≤ r.temperature ∧ r.temperature ≤ 50 then .ok ()
  else .error ("Temperatura " ++ toString r.temperature ++ "°C está fora do intervalo válido (-10 a 50)")

/-- `SensorReading._validate_external_temp`: -20 to 50 °C. -/
def SensorReading.validate_external_temp (r : SensorReading) : Except ValueError Unit :=
  if -20 ≤ r.external_temp ∧ r.external_temp ≤ 50 then .ok ()
  else .error ("Temperatura externa " ++ toString r.external_temp ++ "°C está fora do intervalo válido (-20 a 50)")

/-- `SensorReading._validate_humidity`: 0 to 100 %. -/
def SensorReading.validate_humidity (r : SensorReading) : Except ValueError Unit :=
  if 0 ≤ r.humidity ∧ r.humidity ≤ 100 then .ok ()
  else .error ("Umidade " ++ toString r.humidity ++ "% está fora do intervalo válido (0-100)")

/-- `SensorReading._validate_co2`: 0 to 5000 ppm. -/
def SensorReading.validate_co2 (r : SensorReading) : Except ValueError Unit :=
  if 0 ≤ r.co2_level ∧ r.co2_level ≤ 5000 then .ok ()
  else .error ("Nível de CO2 " ++ toString r.co2_level ++ " ppm está fora do intervalo válido (0-5000)")

/-- `SensorReading._validate_ammonia`: 0 to 100 ppm. -/
def SensorReading.validate_ammonia (r : SensorReading) : Except ValueError Unit :=
  if 0 ≤ r.ammonia_level ∧ r.ammonia_level ≤ 100 then .ok ()
  else .error ("Nível de amônia " ++ toString r.ammonia_level ++ " ppm está fora do intervalo válido (0-100)")

/-- `SensorReading._validate_pressure`: -50 to 50 Pa. -/
def SensorReading.validate_pressure (r : SensorReading) : Except ValueError Unit :=
  if -50 ≤ r.pressure ∧ r.pressure ≤ 50 then .ok ()
  else .error ("Pressão " ++ toString r.pressure ++ " Pa está fora do intervalo válido (-50 a 50)")

/-- `SensorReading.__post_init__`: runs the six field validators in source
order; the first failure aborts construction. -/
def SensorReading.post_init (r : SensorReading) : Except ValueError Unit := do
  r.validate_temperature
  r.validate_external_temp
  r.validate_humidity
  r.validate_co2
  r.validate_ammonia
  r.validate_pressure

/-- Decidable "all fields in range" predicate for a `SensorReading`
(the conjunction of the six validated ranges). -/
def SensorReading.inRanges (r : SensorReading) : Bool :=
  (-10 ≤ r.temperature ∧ r.temperature ≤ 50) ∧
  (-20 ≤ r.external_temp ∧ r.external_temp ≤ 50) ∧
  (0 ≤ r.humidity ∧ r.humidity ≤ 100) ∧
  (0 ≤ r.co2_level ∧ r.co2_level ≤ 5000) ∧
  (0 ≤ r.ammonia_level ∧ r.ammonia_level ≤ 100) ∧
  (-50 ≤ r.pressure ∧ r.pressure ≤ 50)

/-- `EnvironmentalLimits` dataclass fields from `src/models/config.py`. -/
structure EnvironmentalLimits where
  temp_min : ℚ
  temp_max : ℚ
  humidity_min : ℚ
  humidity_max : ℚ
  co2_max : ℚ
  ammonia_max : ℚ
  pressure_target : ℚ
deriving DecidableEq, Repr

/-- `EnvironmentalLimits.__post_init__` validation from `src/models/config.py`
(temperature/humidity chains `min ≤ max` within bounds, gas maxima, pressure
target), as a decidable predicate. -/
def EnvironmentalLimits.valid (l : EnvironmentalLimits) : Bool :=
  (-10 ≤ l.temp_min ∧ l.temp_min ≤ l.temp_max ∧ l.temp_max ≤ 50) ∧
  (0 ≤ l.humidity_min ∧ l.humidity_min ≤ l.humidity_max ∧ l.humidity_max ≤ 100) ∧
  (0 ≤ l.co2_max ∧ l.co2_max ≤ 5000) ∧
  (0 ≤ l.ammonia_max ∧ l.ammonia_max ≤ 100) ∧
  (-50 ≤ l.pressure_target ∧ l.pressure_target ≤ 50)

/-- `ControlAction` dataclass from `src/core/control.py`. -/
structure ControlAction where
  fan_speed : ℚ
  curtain_position : ℚ
  inlet_position : ℚ
  heaters_on : Bool
  nebulizers_on : Bool
  alarm_message : Option String
deriving DecidableEq, Repr

/-- Alarm text set by the critically-high-temperature branch of
`_determine_actions`. -/
def tempHighAlarmMsg (t : ℚ) : String :=
  "Temperatura crítica alta: " ++ toString t ++ "°C"

/-- Alarm text set by the critically-low-temperature branch. -/
def tempLowAlarmMsg (t : ℚ) : String :=
  "Temperatura crítica baixa: " ++ toString t ++ "°C"

/-- Alarm text set by the CO2 branch. -/
def co2AlarmMsg (c : ℚ) : String :=
  "Nível alto de CO2: " ++ toString c ++ " ppm"

/-- Alarm text set by the ammonia branch. -/
def ammoniaAlarmMsg (a : ℚ) : String :=
  "Nível alto de amônia: " ++ toString a ++ " ppm"

/-- Alarm text set by the power-failure branch. -/
def powerAlarmMsg : String := "ALERTA: Sistema operando com bateria!"

/-- Baseline action built at the top of `_determine_actions`:
fan 20 %, curtain 0 %, inlet 20 %, heaters off, nebulizers off, no alarm. -/
def baselineAction : ControlAction :=
  { fan_speed := 20
    curtain_position := 0
    inlet_position := 20
    heaters_on := false
    nebulizers_on := false
    alarm_message := none }

/-- Temperature block (`# Verificar temperatura`) of `_determine_actions`. -/
def applyTemperature (l : EnvironmentalLimits) (r : SensorReading)
    (a : ControlAction) : ControlAction :=
  if r.temperature > l.temp_max then
    let a := { a with fan_speed := 100, nebulizers_on := true }
    let a := if r.external_temp < r.temperature then { a with curtain_position := 100 } else a
    if r.temperature > l.temp_max + 5 then
      { a with alarm_message := some (tempHighAlarmMsg r.temperature) }
    else a
  else if r.temperature < l.temp_min then
    let a := { a with heaters_on := true, curtain_position := 0 }
    if r.temperature < l.temp_min - 5 then
      { a with alarm_message := some (tempLowAlarmMsg r.temperature) }
    else a
  else a

/-- Humidity block (`# Verificar umidade`) of `_determine_actions`. -/
def applyHumidity (l : EnvironmentalLimits) (r : SensorReading)
    (a : ControlAction) : ControlAction :=
  if r.humidity > l.humidity_max then
    { a with fan_speed := max a.fan_speed 80 }
  else if r.humidity < l.humidity_min then
    { a with nebulizers_on := true, inlet_position := min a.inlet_position 40 }
  else a

/-- CO2 block (`# Verificar CO2`) of `_determine_actions`. -/
def applyCO2 (l : EnvironmentalLimits) (r : SensorReading)
    (a : ControlAction) : ControlAction :=
  if r.co2_level > l.co2_max then
    { a with fan_speed := 100, curtain_position := max a.curtain_position 50,
             alarm_message := some (co2AlarmMsg r.co2_level) }
  else a

/-- Ammonia block (`# Verificar amônia`) of `_determine_actions`. -/
def applyAmmonia (l : EnvironmentalLimits) (r : SensorReading)
    (a : ControlAction) : ControlAction :=
  if r.ammonia_level > l.ammonia_max then
    { a with fan_speed := 100, inlet_position := 100,
             alarm_message := some (ammoniaAlarmMsg r.ammonia_level) }
  else a

/-- Pressure block (`# Controle de pressão`) of `_determine_actions`. -/
def applyPressure (l : EnvironmentalLimits) (r : SensorReading)
    (a : ControlAction) : ControlAction :=
  if r.pressure > l.pressure_target + 5 then
    let pressure_error := r.pressure - l.pressure_target
    { a with inlet_position := max a.inlet_position (min 100 (50 + pressure_error * 2)) }
  else a

/-- Power block (`# Verificar energia`) of `_determine_actions`. -/
def applyPower (r : SensorReading) (a : ControlAction) : ControlAction :=
  if r.power_ok then a
  else
    { a with alarm_message := some powerAlarmMsg,
             fan_speed := min a.fan_speed 60,
             heaters_on := false,
             nebulizers_on := false }

/-- `EnvironmentController._determine_actions` from `src/core/control.py`:
the fixed checklist of threshold blocks applied in source order to the
baseline action (later blocks overwrite earlier ones on shared fields). -/
def determine_actions (l : EnvironmentalLimits) (r : SensorReading) : ControlAction :=
  applyPower r
    (applyPressure l r
      (applyAmmonia l r
        (applyCO2 l r
          (applyHumidity l r
            (applyTemperature l r baselineAction)))))

/-- Capability variants of `BaseActuator` from `src/actuators/base.py`:
`BinaryActuator` (on/off only) and `VariableActuator` (accepts PARTIAL with a
value). `src/actuators/devices.py` builds fans/curtains/inlets as variable and
heaters/nebulizers/alarms as binary. -/
inductive ActuatorKind where
  | BINARY
  | VARIABLE
deriving DecidableEq, Repr

/-- Observable state of a `BaseActuator` (`src/actuators/base.py`): identity
plus the `_state`/`_value`/`_error_message`/`_last_updated` slots. The
device-specific `_current_speed`/`_position` mirrors kept by
`src/actuators/devices.py` never reach a `DeviceStatus` and are omitted. -/
structure Actuator where
  device_id : String
  device_type : DeviceType
  kind : ActuatorKind
  state : DeviceState
  value : Option ℚ
  error_message : Option String
  last_updated : Nat
deriving DecidableEq, Repr

/-- `BaseActuator.status` property: the current `DeviceStatus` snapshot. -/
def Actuator.status (a : Actuator) : DeviceStatus :=
  { device_id := a.device_id
    device_type := a.device_type
    state := a.state
    value := a.value
    last_updated := a.last_updated
    error_message := a.error_message }

/-- `_execute` of `BinaryActuator` / `VariableActuator`
(`src/actuators/base.py`): the type-specific validation step. The concrete
device subclasses only add the internal speed/position mirror on top of the
same checks, so they raise exactly when these checks raise. -/
def Actuator.executeImpl (a : Actuator) (cmd : DeviceCommand) : Except ValueError Unit :=
  match a.kind with
  | ActuatorKind.BINARY =>
      if cmd.action = DeviceState.PARTIAL then
        .error ("Dispositivo " ++ a.device_id ++ " suporta apenas estados LIGADO/DESLIGADO")
      else if cmd.value ≠ none then
        .error ("Dispositivo " ++ a.device_id ++ " não aceita parâmetro de valor")
      else .ok ()
  | ActuatorKind.VARIABLE =>
      if cmd.action = DeviceState.PARTIAL ∧ cmd.value = none then
        .error "Estado parcial requer um valor"
      else
        match cmd.value with
        | some v =>
            if 0 ≤ v ∧ v ≤ 100 then .ok ()
            else .error ("Valor inválido: " ++ toString v)
        | none => .ok ()

/-- `BaseActuator.execute_command`: id mismatch raises without mutation; an
`_execute` failure transitions the actuator to ERROR with the message recorded
and re-raises as a `DeviceError`; success stores action/value, clears the
error, stamps `now` and returns the fresh status. The pair carries the result
(or raised error) together with the post-call actuator state. -/
def Actuator.execute_command (a : Actuator) (cmd : DeviceCommand) (now : Nat) :
    Except DeviceError DeviceStatus × Actuator :=
  if cmd.device_id ≠ a.device_id then
    (.error ⟨a.device_id, "ID do dispositivo do comando não corresponde: " ++ cmd.device_id⟩, a)
  else
    match a.executeImpl cmd with
    | .error msg =>
        (.error ⟨a.device_id, msg⟩,
         { a with state := DeviceState.ERROR, error_message := some msg })
    | .ok _ =>
        let a' := { a with state := cmd.action, value := cmd.value,
                           error_message := none, last_updated := now }
        (.ok a'.status, a')

/-- `Alarm` from `src/actuators/devices.py`: a binary actuator plus the
`_message` slot handled by `set_message`/`get_message`. -/
structure AlarmDevice where
  act : Actuator
  message : Option String
deriving DecidableEq, Repr

/-- `DeviceController` registry (`src/actuators/controller.py`): the per-class
device dictionaries, each in insertion (registry) order. Registry keys always
equal the actuators' own device ids, so devices are carried directly. -/
structure DeviceController where
  fans : List Actuator
  curtains : List Actuator
  inlets : List Actuator
  heaters : List Actuator
  nebulizers : List Actuator
  alarms : List AlarmDevice
deriving DecidableEq, Repr

/-- Fresh actuator as built by `BaseActuator.__init__`: state OFF, no value,
no error; construction time is modelled as instant 0. -/
def mkActuator (id : String) (ty : DeviceType) (k : ActuatorKind) : Actuator :=
  { device_id := id, device_type := ty, kind := k,
    state := DeviceState.OFF, value := none, error_message := none, last_updated := 0 }

/-- `DeviceController.__init__`: the default registry of 4 fans, 2 curtains,
4 inlets, 2 heaters, 2 nebulizers and 2 alarms, with the generated ids. -/
def DeviceController.init : DeviceController :=
  { fans := [mkActuator "FAN001" DeviceType.EXHAUST_FAN ActuatorKind.VARIABLE,
             mkActuator "FAN002" DeviceType.EXHAUST_FAN ActuatorKind.VARIABLE,
             mkActuator "FAN003" DeviceType.EXHAUST_FAN ActuatorKind.VARIABLE,
             mkActuator "FAN004" DeviceType.EXHAUST_FAN ActuatorKind.VARIABLE]
    curtains := [mkActuator "CUR001" DeviceType.CURTAIN ActuatorKind.VARIABLE,
                 mkActuator "CUR002" DeviceType.CURTAIN ActuatorKind.VARIABLE]
    inlets := [mkActuator "INL001" DeviceType.INLET ActuatorKind.VARIABLE,
               mkActuator "INL002" DeviceType.INLET ActuatorKind.VARIABLE,
               mkActuator "INL003" DeviceType.INLET ActuatorKind.VARIABLE,
               mkActuator "INL004" DeviceType.INLET ActuatorKind.VARIABLE]
    heaters := [mkActuator "HTR001" DeviceType.HEATER ActuatorKind.BINARY,
                mkActuator "HTR002" DeviceType.HEATER ActuatorKind.BINARY]
    nebulizers := [mkActuator "NEB001" DeviceType.NEBULIZER ActuatorKind.BINARY,
                   mkActuator "NEB002" DeviceType.NEBULIZER ActuatorKind.BINARY]
    alarms := [⟨mkActuator "ALM001" DeviceType.ALARM ActuatorKind.BINARY, none⟩,
               ⟨mkActuator "ALM002" DeviceType.ALARM ActuatorKind.BINARY, none⟩] }

/-- The merged `self._devices` lookup list, in the merge order of
`DeviceController.__init__` (fans, curtains, inlets, heaters, nebulizers,
alarms). -/
def DeviceController.devices (c : DeviceController) : List Actuator :=
  c.fans ++ c.curtains ++ c.inlets ++ c.heaters ++ c.nebulizers ++ c.alarms.map AlarmDevice.act

/-- Replace the device with the given id (in whichever class list holds it)
by a new actuator state: the effect of mutating the shared actuator object
found through `self._devices`. -/
def DeviceController.replaceDevice (c : DeviceController) (id : String) (a : Actuator) :
    DeviceController :=
  { fans := c.fans.map fun d => if d.device_id = id then a else d
    curtains := c.curtains.map fun d => if d.device_id = id then a else d
    inlets := c.inlets.map fun d => if d.device_id = id then a else d
    heaters := c.heaters.map fun d => if d.device_id = id then a else d
    nebulizers := c.nebulizers.map fun d => if d.device_id = id then a else d
    alarms := c.alarms.map fun d => if d.act.device_id = id then { d with act := a } else d }

/-- `DeviceController.execute_command` (`src/actuators/controller.py`): look
the device up by id, raise "Dispositivo não encontrado" if absent, otherwise
delegate to the actuator (logging has no observable effect; actuator-side
failures propagate, with the actuator's mutation retained). -/
def DeviceController.execute_command (c : DeviceController) (cmd : DeviceCommand)
    (now : Nat) : Except DeviceError DeviceStatus × DeviceController :=
  match c.devices.find? (fun d => d.device_id = cmd.device_id) with
  | none => (.error ⟨cmd.device_id, "Dispositivo não encontrado"⟩, c)
  | some d =>
      let (res, d') := d.execute_command cmd now
      (res, c.replaceDevice cmd.device_id d')

/-- Shared shape of the per-class fan-out loops of
`src/actuators/controller.py` (`set_fan_speeds`, `set_curtain_positions`,
`set_inlet_positions`, `set_heaters`, `set_nebulizers`): build the command for
each device in registry order, execute it, catch a `DeviceError` and
substitute the device's current status, but let a `ValueError` from command
construction escape (only `DeviceError` is caught). The pair carries the
escaped error or the result list, plus the post-call device list (mutations
made before an escape persist). -/
def batchLoop (mk : Actuator → Except ValueError DeviceCommand) (now : Nat) :
    List Actuator → Except ValueError (List (String × DeviceStatus)) × List Actuator
  | [] => (.ok [], [])
  | d :: rest =>
      match mk d with
      | .error e => (.error e, d :: rest)
      | .ok cmd =>
          let (res, d') := d.execute_command cmd now
          let entry : String × DeviceStatus :=
            match res with
            | .ok st => (d.device_id, st)
            | .error _ => (d.device_id, d'.status)
          match batchLoop mk now rest with
          | (.error e, rest') => (.error e, d' :: rest')
          | (.ok entries, rest') => (.ok (entry :: entries), d' :: rest')

/-- `DeviceController.set_fan_speeds`: PARTIAL(speed) to every fan. -/
def DeviceController.set_fan_speeds (c : DeviceController) (speed : ℚ) (now : Nat) :
    Except ValueError (List (String × DeviceStatus)) × DeviceController :=
  let (res, fans') :=
    batchLoop (fun d => DeviceCommand.make d.device_id DeviceState.PARTIAL (some speed) now)
      now c.fans
  (res, { c with fans := fans' })

/-- `DeviceController.set_curtain_positions`: PARTIAL(position) to every curtain. -/
def DeviceController.set_curtain_positions (c : DeviceController) (position : ℚ) (now : Nat) :
    Except ValueError (List (String × DeviceStatus)) × DeviceController :=
  let (res, curtains') :=
    batchLoop (fun d => DeviceCommand.make d.device_id DeviceState.PARTIAL (some position) now)
      now c.curtains
  (res, { c with curtains := curtains' })

/-- `DeviceController.set_inlet_positions`: PARTIAL(position) to every inlet. -/
def DeviceController.set_inlet_positions (c : DeviceController) (position : ℚ) (now : Nat) :
    Except ValueError (List (String × DeviceStatus)) × DeviceController :=
  let (res, inlets') :=
    batchLoop (fun d => DeviceCommand.make d.device_id DeviceState.PARTIAL (some position) now)
      now c.inlets
  (res, { c with inlets := inlets' })

/-- `DeviceController.set_heaters`: raises up front on PARTIAL, otherwise
fans the plain state out to every heater. -/
def DeviceController.set_heaters (c : DeviceController) (state : DeviceState) (now : Nat) :
    Except ValueError (List (String × DeviceStatus)) × DeviceController :=
  if state = DeviceState.PARTIAL then
    (.error "Heaters only support ON/OFF states", c)
  else
    let (res, heaters') :=
      batchLoop (fun d => DeviceCommand.make d.device_id state none now) now c.heaters
    (res, { c with heaters := heaters' })

/-- `DeviceController.set_nebulizers`: raises up front on PARTIAL, otherwise
fans the plain state out to every nebulizer. -/
def DeviceController.set_nebulizers (c : DeviceController) (state : DeviceState) (now : Nat) :
    Except ValueError (List (String × DeviceStatus)) × DeviceController :=
  if state = DeviceState.PARTIAL then
    (.error "Nebulizers only support ON/OFF states", c)
  else
    let (res, nebulizers') :=
      batchLoop (fun d => DeviceCommand.make d.device_id state none now) now c.nebulizers
    (res, { c with nebulizers := nebulizers' })

/-- The alarm fan-out loop shared by `trigger_alarm` / `clear_alarms`:
store the message on each alarm, then issue a plain ON/OFF command with the
same catch-`DeviceError` pattern as `batchLoop`. -/
def alarmLoop (msg : Option String) (action : DeviceState) (now : Nat) :
    List AlarmDevice → Except ValueError (List (String × DeviceStatus)) × List AlarmDevice
  | [] => (.ok [], [])
  | d :: rest =>
      let d := { d with message := msg }
      match DeviceCommand.make d.act.device_id action none now with
      | .error e => (.error e, d :: rest)
      | .ok cmd =>
          let (res, a') := d.act.execute_command cmd now
          let d' := { d with act := a' }
          let entry : String × DeviceStatus :=
            match res with
            | .ok st => (d.act.device_id, st)
            | .error _ => (d.act.device_id, a'.status)
          match alarmLoop msg action now rest with
          | (.error e, rest') => (.error e, d' :: rest')
          | (.ok entries, rest') => (.ok (entry :: entries), d' :: rest')

/-- `DeviceController.trigger_alarm`: set every alarm's message and turn it on. -/
def DeviceController.trigger_alarm (c : DeviceController) (message : String) (now : Nat) :
    Except ValueError (List (String × DeviceStatus)) × DeviceController :=
  let (res, alarms') := alarmLoop (some message) DeviceState.ON now c.alarms
  (res, { c with alarms := alarms' })

/-- `DeviceController.clear_alarms`: clear every alarm's message and turn it off. -/
def DeviceController.clear_alarms (c : DeviceController) (now : Nat) :
    Except ValueError (List (String × DeviceStatus)) × DeviceController :=
  let (res, alarms') := alarmLoop none DeviceState.OFF now c.alarms
  (res, { c with alarms := alarms' })

/-- `ReadingBuffer` from `src/sensors/reader.py`: bounded list of readings. -/
structure ReadingBuffer where
  max_size : Nat
  readings : List SensorReading
deriving DecidableEq, Repr

/-- `ReadingBuffer.add_reading`: append, then drop the oldest reading when the
buffer exceeds `max_size`. -/
def ReadingBuffer.add_reading (b : ReadingBuffer) (r : SensorReading) : ReadingBuffer :=
  let rs := b.readings ++ [r]
  if rs.length > b.max_size then { b with readings := rs.drop 1 }
  else { b with readings := rs }

/-- `EnvironmentController` state from `src/core/control.py`. -/
structure EnvironmentController where
  device_controller : DeviceController
  limits : EnvironmentalLimits
  reading_buffer : ReadingBuffer
  last_action : Option ControlAction

/-- `results.extend(...)` over fallible sub-calls: thread the device
controller through the next sub-call, keeping an escaped error (the remaining
`extend`s do not run, but mutations made so far persist). -/
def stepk
    (prev : Except ValueError (List (String × DeviceStatus)) × DeviceController)
    (f : DeviceController → Except ValueError (List (String × DeviceStatus)) × DeviceController) :
    Except ValueError (List (String × DeviceStatus)) × DeviceController :=
  match prev with
  | (.error e, dc) => (.error e, dc)
  | (.ok acc, dc) =>
      match f dc with
      | (.error e, dc') => (.error e, dc')
      | (.ok res, dc') => (.ok (acc ++ res), dc')

/-- `EnvironmentController.process_reading` from `src/core/control.py`:
buffer the reading, compute and store the action, then realize it through the
device controller (fans, curtains, inlets, heaters, nebulizers, then trigger
or clear alarms — Python's `if action.alarm_message:` treats an empty string
like `None`). Returns the concatenated result list paired with the post-call
controller state. -/
def EnvironmentController.process_reading (ec : EnvironmentController)
    (r : SensorReading) (now : Nat) :
    Except ValueError (List (String × DeviceStatus)) × EnvironmentController :=
  let buf := ec.reading_buffer.add_reading r
  let action := determine_actions ec.limits r
  let s0 := (Except.ok ([] : List (String × DeviceStatus)), ec.device_controller)
  let s1 := stepk s0 (fun dc => dc.set_fan_speeds action.fan_speed now)
  let s2 := stepk s1 (fun dc => dc.set_curtain_positions action.curtain_position now)
  let s3 := stepk s2 (fun dc => dc.set_inlet_positions action.inlet_position now)
  let s4 := stepk s3 (fun dc =>
    dc.set_heaters (if action.heaters_on then DeviceState.ON else DeviceState.OFF) now)
  let s5 := stepk s4 (fun dc =>
    dc.set_nebulizers (if action.nebulizers_on then DeviceState.ON else DeviceState.OFF) now)
  let s6 := stepk s5 (fun dc =>
    match action.alarm_message with
    | some msg => if msg = "" then dc.clear_alarms now else dc.trigger_alarm msg now
    | none => dc.clear_alarms now)
  (s6.1,
   { ec with reading_buffer := buf, last_action := some action,
             device_controller := s6.2 })

/-! Theorems about the embedded program. -/

/-- C7: `SensorReading` construction succeeds exactly when every numeric field
lies in its documented physical range (temperature -10..50 °C, external
temperature -20..50 °C, humidity 0..100 %, CO2 0..5000 ppm, ammonia 0..100
ppm, pressure -50..50 Pa); any out-of-range field (e.g. humidity 150) makes
construction raise. -/
theorem sensor_reading_construction_iff (r : SensorReading) :
    r.post_init = Except.ok () ↔ r.inRanges = true := by
  simp only [SensorReading.post_init, SensorReading.validate_temperature,
    SensorReading.validate_external_temp, SensorReading.validate_humidity,
    SensorReading.validate_co2, SensorReading.validate_ammonia,
    SensorReading.validate_pressure, SensorReading.inRanges, bind, Except.bind]
  split_ifs <;> simp_all

/-- C4 counterexample: the `DeviceStatus` validator accepts a status whose
state is not ERROR but which carries an error message, so "error message
present if and only if state is error" fails in the only-if direction (and
construction does not raise on it). -/
theorem device_status_iff_counterexample :
    DeviceStatus.validate_status
        ⟨"HTR001", DeviceType.HEATER, DeviceState.ON, none, 0, some "boom"⟩ = Except.ok () ∧
    DeviceState.ON ≠ DeviceState.ERROR ∧
    some "boom" ≠ (none : Option String) :=
  ⟨rfl, by decide, by decide⟩

/-- C4 (amended): `DeviceStatus` construction succeeds exactly when: ERROR
state comes with a truthy (non-empty) error message, PARTIAL state comes with
a value, and any present value lies in [0,100]. The converses (message only
when ERROR; value only when PARTIAL or variable-capable) are not checked by
the constructor. -/
theorem device_status_construction_iff (d : DeviceStatus) :
    d.validate_status = Except.ok () ↔
      ((d.state = DeviceState.ERROR → strFalsy d.error_message = false) ∧
       (d.state = DeviceState.PARTIAL → d.value ≠ none) ∧
       (∀ v, d.value = some v → 0 ≤ v ∧ v ≤ 100)) := by
  unfold DeviceStatus.validate_status
  rcases hv : d.value with _ | v <;> split_ifs <;> simp_all

/-- C6: executing a command whose device id is not in the registry raises
"Dispositivo não encontrado" and returns the controller unchanged, so the
state (state, value, error message, timestamp) of every actuator is
untouched. -/
theorem execute_command_unknown_id (c : DeviceController) (cmd : DeviceCommand)
    (now : Nat) (h : ∀ d ∈ c.devices, d.device_id ≠ cmd.device_id) :
    c.execute_command cmd now =
      (Except.error ⟨cmd.device_id, "Dispositivo não encontrado"⟩, c) := by
  unfold DeviceController.execute_command
  have hf : c.devices.find? (fun d => d.device_id = cmd.device_id) = none := by
    refine List.find?_eq_none.mpr fun d hd => ?_
    simp [h d hd]
  rw [hf]

/-- C6 witness: the default registry rejects id "FAN999" untouched. -/
theorem execute_command_unknown_id_witness :
    DeviceController.init.execute_command ⟨"FAN999", DeviceState.ON, none, 3⟩ 3 =
      (Except.error ⟨"FAN999", "Dispositivo não encontrado"⟩, DeviceController.init) :=
  execute_command_unknown_id DeviceController.init ⟨"FAN999", DeviceState.ON, none, 3⟩ 3
    (by decide)

/-- C9: the `ControlAction` computed and stored by `process_reading` is a pure
function of the environmental limits and the reading: processing the same
reading twice (from any starting state, at any times) stores the same action
both times, and it is `determine_actions` of the original limits and the
reading — the growing reading buffer and the previous last action have no
influence. -/
theorem process_reading_same_action_twice (ec : EnvironmentController)
    (r : SensorReading) (n1 n2 : Nat) :
    (ec.process_reading r n1).2.last_action = some (determine_actions ec.limits r) ∧
    ((ec.process_reading r n1).2.process_reading r n2).2.last_action =
      some (determine_actions ec.limits r) := by
  have hlim : ∀ (e : EnvironmentController) (n : Nat),
      (e.process_reading r n).2.limits = e.limits := by
    intro e n
    simp [EnvironmentController.process_reading]
  have hact : ∀ (e : EnvironmentController) (n : Nat),
      (e.process_reading r n).2.last_action = some (determine_actions e.limits r) := by
    intro e n
    simp [EnvironmentController.process_reading]
  exact ⟨hact ec n1, by rw [hact, hlim]⟩

/-! Behaviour of the individual `_determine_actions` blocks. -/

theorem applyPower_of_not_ok (r : SensorReading) (a : ControlAction)
    (hp : r.power_ok = false) :
    applyPower r a =
      { a with alarm_message := some powerAlarmMsg,
               fan_speed := min a.fan_speed 60,
               heaters_on := false, nebulizers_on := false } := by
  simp [applyPower, hp]

theorem applyPower_of_ok (r : SensorReading) (a : ControlAction)
    (hp : r.power_ok = true) : applyPower r a = a := by
  simp [applyPower, hp]

theorem applyAmmonia_of_gt (l : EnvironmentalLimits) (r : SensorReading)
    (a : ControlAction) (h : r.ammonia_level > l.ammonia_max) :
    applyAmmonia l r a =
      { a with fan_speed := 100, inlet_position := 100,
               alarm_message := some (ammoniaAlarmMsg r.ammonia_level) } := by
  simp [applyAmmonia, h]

theorem applyAmmonia_of_le (l : EnvironmentalLimits) (r : SensorReading)
    (a : ControlAction) (h : r.ammonia_level ≤ l.ammonia_max) :
    applyAmmonia l r a = a := by
  simp [applyAmmonia, not_lt.mpr h]

theorem applyCO2_of_le (l : EnvironmentalLimits) (r : SensorReading)
    (a : ControlAction) (h : r.co2_level ≤ l.co2_max) :
    applyCO2 l r a = a := by
  simp [applyCO2, not_lt.mpr h]

theorem applyPressure_fields (l : EnvironmentalLimits) (r : SensorReading)
    (a : ControlAction) :
    (applyPressure l r a).fan_speed = a.fan_speed ∧
    (applyPressure l r a).curtain_position = a.curtain_position ∧
    (applyPressure l r a).heaters_on = a.heaters_on ∧
    (applyPressure l r a).nebulizers_on = a.nebulizers_on ∧
    (applyPressure l r a).alarm_message = a.alarm_message := by
  unfold applyPressure
  split <;> simp

theorem applyPressure_inlet_of_100 (l : EnvironmentalLimits) (r : SensorReading)
    (a : ControlAction) (h : a.inlet_position = 100) :
    (applyPressure l r a).inlet_position = 100 := by
  unfold applyPressure
  split
  · simp [h, max_eq_left (min_le_left _ _)]
  · exact h

theorem applyTemperature_critical_high (l : EnvironmentalLimits) (r : SensorReading)
    (a : ControlAction) (h1 : l.temp_max < r.temperature)
    (h2 : l.temp_max + 5 < r.temperature) :
    (applyTemperature l r a).fan_speed = 100 ∧
    (applyTemperature l r a).nebulizers_on = true ∧
    (applyTemperature l r a).alarm_message = some (tempHighAlarmMsg r.temperature) := by
  unfold applyTemperature
  by_cases hext : r.external_temp < r.temperature <;> simp [h1, h2, hext]

theorem applyHumidity_keeps (l : EnvironmentalLimits) (r : SensorReading)
    (a : ControlAction) :
    (applyHumidity l r a).alarm_message = a.alarm_message ∧
    (a.nebulizers_on = true → (applyHumidity l r a).nebulizers_on = true) ∧
    (a.fan_speed = 100 → (applyHumidity l r a).fan_speed = 100) := by
  unfold applyHumidity
  split_ifs with hh1 hh2
  · refine ⟨rfl, fun h => h, fun h => ?_⟩
    show max a.fan_speed 80 = 100
    rw [h]
    exact max_eq_left (by norm_num)
  · exact ⟨rfl, fun _ => rfl, fun h => h⟩
  · exact ⟨rfl, fun h => h, fun h => h⟩

/-- C1: with power not OK, the final power block forces heaters and
nebulizers off, clamps the fan to at most 60 % and overwrites any alarm with
the power-warning text, regardless of every other reading field. -/
theorem power_fail_forces_conservative_action (l : EnvironmentalLimits)
    (r : SensorReading) (hl : l.valid = true) (hr : r.inRanges = true)
    (hp : r.power_ok = false) :
    (determine_actions l r).heaters_on = false ∧
    (determine_actions l r).nebulizers_on = false ∧
    (determine_actions l r).fan_speed ≤ 60 ∧
    (determine_actions l r).alarm_message = some powerAlarmMsg := by
  unfold determine_actions
  rw [applyPower_of_not_ok r _ hp]
  exact ⟨rfl, rfl, min_le_right _ _, rfl⟩

/-- C1 witness: a concrete valid reading with failed power under the default
limits. -/
theorem power_fail_forces_conservative_action_witness :
    (determine_actions ⟨18, 32, 50, 70, 2000, 25, 25⟩
        ⟨0, 25, 20, 60, 800, 10, 20, false, "S1"⟩).heaters_on = false ∧
    (determine_actions ⟨18, 32, 50, 70, 2000, 25, 25⟩
        ⟨0, 25, 20, 60, 800, 10, 20, false, "S1"⟩).nebulizers_on = false ∧
    (determine_actions ⟨18, 32, 50, 70, 2000, 25, 25⟩
        ⟨0, 25, 20, 60, 800, 10, 20, false, "S1"⟩).fan_speed ≤ 60 ∧
    (determine_actions ⟨18, 32, 50, 70, 2000, 25, 25⟩
        ⟨0, 25, 20, 60, 800, 10, 20, false, "S1"⟩).alarm_message = some powerAlarmMsg :=
  power_fail_forces_conservative_action ⟨18, 32, 50, 70, 2000, 25, 25⟩
    ⟨0, 25, 20, 60, 800, 10, 20, false, "S1"⟩ (by decide) (by decide) rfl

/-- C2: with ammonia over its maximum and power OK, the ammonia block (which
runs after the temperature, humidity and CO2 blocks) fixes fan 100 %, inlet
100 % and the ammonia alarm text, and the later pressure and power blocks
leave those fields alone — last check wins over any earlier temperature or
CO2 alarm. -/
theorem ammonia_last_check_wins (l : EnvironmentalLimits) (r : SensorReading)
    (hl : l.valid = true) (hr : r.inRanges = true)
    (ha : r.ammonia_level > l.ammonia_max) (hp : r.power_ok = true) :
    (determine_actions l r).fan_speed = 100 ∧
    (determine_actions l r).inlet_position = 100 ∧
    (determine_actions l r).alarm_message = some (ammoniaAlarmMsg r.ammonia_level) := by
  unfold determine_actions
  rw [applyPower_of_ok r _ hp, applyAmmonia_of_gt l r _ ha]
  obtain ⟨p1, -, -, -, p5⟩ := applyPressure_fields l r
    { applyCO2 l r (applyHumidity l r (applyTemperature l r baselineAction)) with
      fan_speed := 100, inlet_position := 100,
      alarm_message := some (ammoniaAlarmMsg r.ammonia_level) }
  refine ⟨by rw [p1], applyPressure_inlet_of_100 l r _ rfl, by rw [p5]⟩

/-- C2 witness: ammonia 30 ppm against a 25 ppm maximum, power OK. -/
theorem ammonia_last_check_wins_witness :
    (determine_actions ⟨18, 32, 50, 70, 2000, 25, 25⟩
        ⟨0, 25, 20, 60, 800, 30, 20, true, "S1"⟩).fan_speed = 100 ∧
    (determine_actions ⟨18, 32, 50, 70, 2000, 25, 25⟩
        ⟨0, 25, 20, 60, 800, 30, 20, true, "S1"⟩).inlet_position = 100 ∧
    (determine_actions ⟨18, 32, 50, 70, 2000, 25, 25⟩
        ⟨0, 25, 20, 60, 800, 30, 20, true, "S1"⟩).alarm_message = some (ammoniaAlarmMsg 30) :=
  ammonia_last_check_wins ⟨18, 32, 50, 70, 2000, 25, 25⟩
    ⟨0, 25, 20, 60, 800, 30, 20, true, "S1"⟩ (by decide) (by decide) (by decide) rfl

/-- C8 counterexample: a valid reading with temperature 40 but failed power
(under valid limits with temp_max 32) gets `nebulizers_on = false` from the
power block, so the claim's unconditional conclusion (fan 100, nebulizers on,
high-temperature alarm) is false for it. -/
theorem high_temp_claim_counterexample :
    (⟨18, 32, 50, 70, 2000, 25, 25⟩ : EnvironmentalLimits).valid = true ∧
    (⟨0, 40, 25, 60, 800, 10, 20, false, "S1"⟩ : SensorReading).inRanges = true ∧
    (⟨0, 40, 25, 60, 800, 10, 20, false, "S1"⟩ : SensorReading).temperature = 40 ∧
    (⟨18, 32, 50, 70, 2000, 25, 25⟩ : EnvironmentalLimits).temp_max = 32 ∧
    (determine_actions ⟨18, 32, 50, 70, 2000, 25, 25⟩
        ⟨0, 40, 25, 60, 800, 10, 20, false, "S1"⟩).nebulizers_on = false :=
  ⟨by decide, by decide, rfl, rfl, by simp [determine_actions, applyPower]⟩

/-- C8 (amended): with temperature 40 against temp_max 32, the conclusion
(fan 100, nebulizers on, critical-high-temperature alarm) holds provided no
later block overwrites it: CO2 and ammonia within their maxima and power OK.
(The unamended claim is refuted by `high_temp_claim_counterexample`.) -/
theorem high_temp_critical_response (l : EnvironmentalLimits) (r : SensorReading)
    (hl : l.valid = true) (hr : r.inRanges = true)
    (ht : r.temperature = 40) (hm : l.temp_max = 32)
    (hco2 : r.co2_level ≤ l.co2_max) (ham : r.ammonia_level ≤ l.ammonia_max)
    (hp : r.power_ok = true) :
    (determine_actions l r).fan_speed = 100 ∧
    (determine_actions l r).nebulizers_on = true ∧
    (determine_actions l r).alarm_message = some (tempHighAlarmMsg r.temperature) := by
  have h1 : l.temp_max < r.temperature := by
    rw [ht, hm]
    norm_num
  have h2 : l.temp_max + 5 < r.temperature := by
    rw [ht, hm]
    norm_num
  obtain ⟨hTf, hTn, hTa⟩ := applyTemperature_critical_high l r baselineAction h1 h2
  obtain ⟨hHa, hHn, hHf⟩ := applyHumidity_keeps l r (applyTemperature l r baselineAction)
  unfold determine_actions
  rw [applyPower_of_ok r _ hp, applyAmmonia_of_le l r _ ham, applyCO2_of_le l r _ hco2]
  obtain ⟨p1, -, -, p4, p5⟩ :=
    applyPressure_fields l r (applyHumidity l r (applyTemperature l r baselineAction))
  exact ⟨by rw [p1, hHf hTf], by rw [p4, hHn hTn], by rw [p5, hHa, hTa]⟩

/-- C8 witness: temperature 40, all other parameters nominal, power OK. -/
theorem high_temp_critical_response_witness :
    (determine_actions ⟨18, 32, 50, 70, 2000, 25, 25⟩
        ⟨0, 40, 25, 60, 800, 10, 20, true, "S1"⟩).fan_speed = 100 ∧
    (determine_actions ⟨18, 32, 50, 70, 2000, 25, 25⟩
        ⟨0, 40, 25, 60, 800, 10, 20, true, "S1"⟩).nebulizers_on = true ∧
    (determine_actions ⟨18, 32, 50, 70, 2000, 25, 25⟩
        ⟨0, 40, 25, 60, 800, 10, 20, true, "S1"⟩).alarm_message =
      some (tempHighAlarmMsg 40) :=
  high_temp_critical_response ⟨18, 32, 50, 70, 2000, 25, 25⟩
    ⟨0, 40, 25, 60, 800, 10, 20, true, "S1"⟩ (by decide) (by decide) rfl rfl
    (by decide) (by decide) rfl

/-- The three percentage fields of a `ControlAction` lie in [0, 100]. -/
def ControlAction.percentsInRange (a : ControlAction) : Prop :=
  (0 ≤ a.fan_speed ∧ a.fan_speed ≤ 100) ∧
  (0 ≤ a.curtain_position ∧ a.curtain_position ≤ 100) ∧
  (0 ≤ a.inlet_position ∧ a.inlet_position ≤ 100)

theorem baseline_percents : baselineAction.percentsInRange := by
  unfold ControlAction.percentsInRange baselineAction
  norm_num

theorem applyTemperature_percents (l : EnvironmentalLimits) (r : SensorReading)
    (a : ControlAction) (h : a.percentsInRange) :
    (applyTemperature l r a).percentsInRange := by
  obtain ⟨⟨f0, f1⟩, ⟨c0, c1⟩, ⟨i0, i1⟩⟩ := h
  unfold applyTemperature
  split_ifs <;>
    exact ⟨by constructor <;> first | assumption | norm_num,
           by constructor <;> first | assumption | norm_num,
           by constructor <;> first | assumption | norm_num⟩

theorem applyHumidity_percents (l : EnvironmentalLimits) (r : SensorReading)
    (a : ControlAction) (h : a.percentsInRange) :
    (applyHumidity l r a).percentsInRange := by
  obtain ⟨⟨f0, f1⟩, ⟨c0, c1⟩, ⟨i0, i1⟩⟩ := h
  unfold applyHumidity
  split_ifs
  · exact ⟨⟨le_trans f0 (le_max_left _ _), max_le f1 (by norm_num)⟩, ⟨c0, c1⟩, ⟨i0, i1⟩⟩
  · exact ⟨⟨f0, f1⟩, ⟨c0, c1⟩, ⟨le_min i0 (by norm_num), le_trans (min_le_left _ _) i1⟩⟩
  · exact ⟨⟨f0, f1⟩, ⟨c0, c1⟩, ⟨i0, i1⟩⟩

theorem applyCO2_percents (l : EnvironmentalLimits) (r : SensorReading)
    (a : ControlAction) (h : a.percentsInRange) :
    (applyCO2 l r a).percentsInRange := by
  obtain ⟨⟨f0, f1⟩, ⟨c0, c1⟩, ⟨i0, i1⟩⟩ := h
  unfold applyCO2
  split_ifs
  · exact ⟨by norm_num, ⟨le_trans c0 (le_max_left _ _), max_le c1 (by norm_num)⟩, ⟨i0, i1⟩⟩
  · exact ⟨⟨f0, f1⟩, ⟨c0, c1⟩, ⟨i0, i1⟩⟩

theorem applyAmmonia_percents (l : EnvironmentalLimits) (r : SensorReading)
    (a : ControlAction) (h : a.percentsInRange) :
    (applyAmmonia l r a).percentsInRange := by
  obtain ⟨⟨f0, f1⟩, ⟨c0, c1⟩, ⟨i0, i1⟩⟩ := h
  unfold applyAmmonia
  split_ifs
  · exact ⟨by norm_num, ⟨c0, c1⟩, by norm_num⟩
  · exact ⟨⟨f0, f1⟩, ⟨c0, c1⟩, ⟨i0, i1⟩⟩

theorem applyPressure_percents (l : EnvironmentalLimits) (r : SensorReading)
    (a : ControlAction) (h : a.percentsInRange) :
    (applyPressure l r a).percentsInRange := by
  obtain ⟨⟨f0, f1⟩, ⟨c0, c1⟩, ⟨i0, i1⟩⟩ := h
  unfold applyPressure
  split_ifs
  · exact ⟨⟨f0, f1⟩, ⟨c0, c1⟩,
      ⟨le_trans i0 (le_max_left _ _), max_le i1 (min_le_left _ _)⟩⟩
  · exact ⟨⟨f0, f1⟩, ⟨c0, c1⟩, ⟨i0, i1⟩⟩

theorem applyPower_percents (r : SensorReading) (a : ControlAction)
    (h : a.percentsInRange) : (applyPower r a).percentsInRange := by
  obtain ⟨⟨f0, f1⟩, ⟨c0, c1⟩, ⟨i0, i1⟩⟩ := h
  unfold applyPower
  split_ifs
  · exact ⟨⟨f0, f1⟩, ⟨c0, c1⟩, ⟨i0, i1⟩⟩
  · exact ⟨⟨le_min f0 (by norm_num), le_trans (min_le_left _ _) f1⟩, ⟨c0, c1⟩, ⟨i0, i1⟩⟩

theorem make_partial_ok_of_range (id : String) (ts : Nat) (v : ℚ)
    (h0 : 0 ≤ v) (h1 : v ≤ 100) :
    DeviceCommand.make id DeviceState.PARTIAL (some v) ts =
      Except.ok ⟨id, DeviceState.PARTIAL, some v, ts⟩ := by
  unfold DeviceCommand.make
  simp [h0, h1]

/-- C10: for any valid reading and valid limits the computed action's fan
speed, curtain position and inlet position all lie in [0,100], so the PARTIAL
`DeviceCommand`s that `process_reading`'s fan, curtain and inlet sub-calls
construct from them always pass construction-time validation (the
construction-raise branch is unreachable from `process_reading`). -/
theorem action_percents_in_range (l : EnvironmentalLimits) (r : SensorReading)
    (hl : l.valid = true) (hr : r.inRanges = true) :
    (determine_actions l r).percentsInRange ∧
    (∀ id ts, DeviceCommand.make id DeviceState.PARTIAL
        (some (determine_actions l r).fan_speed) ts =
      Except.ok ⟨id, DeviceState.PARTIAL, some (determine_actions l r).fan_speed, ts⟩) ∧
    (∀ id ts, DeviceCommand.make id DeviceState.PARTIAL
        (some (determine_actions l r).curtain_position) ts =
      Except.ok ⟨id, DeviceState.PARTIAL, some (determine_actions l r).curtain_position, ts⟩) ∧
    (∀ id ts, DeviceCommand.make id DeviceState.PARTIAL
        (some (determine_actions l r).inlet_position) ts =
      Except.ok ⟨id, DeviceState.PARTIAL, some (determine_actions l r).inlet_position, ts⟩) := by
  have hrange : (determine_actions l r).percentsInRange := by
    unfold determine_actions
    exact applyPower_percents r _ (applyPressure_percents l r _ (applyAmmonia_percents l r _
      (applyCO2_percents l r _ (applyHumidity_percents l r _
        (applyTemperature_percents l r _ baseline_percents)))))
  obtain ⟨⟨f0, f1⟩, ⟨c0, c1⟩, ⟨i0, i1⟩⟩ := hrange
  exact ⟨⟨⟨f0, f1⟩, ⟨c0, c1⟩, ⟨i0, i1⟩⟩,
    fun id ts => make_partial_ok_of_range id ts _ f0 f1,
    fun id ts => make_partial_ok_of_range id ts _ c0 c1,
    fun id ts => make_partial_ok_of_range id ts _ i0 i1⟩

/-- C10 witness: the default limits and a nominal reading, instantiating the
command-construction conclusion at fan FAN001 and time 7. -/
theorem action_percents_in_range_witness :
    (determine_actions ⟨18, 32, 50, 70, 2000, 25, 25⟩
        ⟨0, 25, 20, 60, 800, 10, 20, true, "S1"⟩).percentsInRange ∧
    DeviceCommand.make "FAN001" DeviceState.PARTIAL
        (some (determine_actions ⟨18, 32, 50, 70, 2000, 25, 25⟩
          ⟨0, 25, 20, 60, 800, 10, 20, true, "S1"⟩).fan_speed) 7 =
      Except.ok ⟨"FAN001", DeviceState.PARTIAL,
        some (determine_actions ⟨18, 32, 50, 70, 2000, 25, 25⟩
          ⟨0, 25, 20, 60, 800, 10, 20, true, "S1"⟩).fan_speed, 7⟩ := by
  obtain ⟨h1, h2, h3, h4⟩ := action_percents_in_range ⟨18, 32, 50, 70, 2000, 25, 25⟩
    ⟨0, 25, 20, 60, 800, 10, 20, true, "S1"⟩ (by decide) (by decide)
  exact ⟨h1, h2 "FAN001" 7⟩

/-- A command execution that failed validation: the actuator transitioned to
ERROR, the message was recorded, and a `DeviceError` carrying the same
message was raised. -/
def failedWithError (p : Except DeviceError DeviceStatus × Actuator) : Prop :=
  p.2.state = DeviceState.ERROR ∧
  ∃ m, p.2.error_message = some m ∧ p.1 = Except.error ⟨p.2.device_id, m⟩

theorem execute_command_of_impl_error (a : Actuator) (cmd : DeviceCommand) (now : Nat)
    (hid : cmd.device_id = a.device_id) (m : ValueError)
    (he : a.executeImpl cmd = .error m) :
    a.execute_command cmd now =
      (Except.error ⟨a.device_id, m⟩,
       { a with state := DeviceState.ERROR, error_message := some m }) := by
  unfold Actuator.execute_command
  rw [if_neg (by simp [hid]), he]

/-- The actuator state after a successful `execute_command` apply step:
action and value stored, error cleared, timestamp updated. -/
def Actuator.applySuccess (a : Actuator) (cmd : DeviceCommand) (now : Nat) : Actuator :=
  { a with state := cmd.action, value := cmd.value,
           error_message := none, last_updated := now }

theorem execute_command_of_impl_ok (a : Actuator) (cmd : DeviceCommand) (now : Nat)
    (hid : cmd.device_id = a.device_id) (he : a.executeImpl cmd = .ok ()) :
    a.execute_command cmd now =
      (Except.ok (a.applySuccess cmd now).status, a.applySuccess cmd now) := by
  unfold Actuator.execute_command Actuator.applySuccess
  rw [if_neg (by simp [hid]), he]

/-- C5: the capability validation of `BinaryActuator` / `VariableActuator`
inside `execute_command` (for a command addressed to the actuator): a binary
actuator raises on PARTIAL and on any non-null value; a variable actuator
succeeds for PARTIAL with a value in [0,100] (returning the fresh status),
raises on PARTIAL without a value and on any value outside [0,100]; every
such validation failure leaves the actuator in ERROR state with the message
recorded and re-raises it as a `DeviceError`. -/
theorem actuator_capability_validation (a : Actuator) (cmd : DeviceCommand)
    (now : Nat) (hid : cmd.device_id = a.device_id) :
    (a.kind = ActuatorKind.BINARY → cmd.action = DeviceState.PARTIAL →
       failedWithError (a.execute_command cmd now)) ∧
    (a.kind = ActuatorKind.BINARY → cmd.value ≠ none →
       failedWithError (a.execute_command cmd now)) ∧
    (a.kind = ActuatorKind.VARIABLE → cmd.action = DeviceState.PARTIAL →
       ∀ v, cmd.value = some v → 0 ≤ v → v ≤ 100 →
       (a.execute_command cmd now).1 =
           Except.ok ((a.execute_command cmd now).2.status) ∧
         (a.execute_command cmd now).2.state = DeviceState.PARTIAL ∧
         (a.execute_command cmd now).2.value = some v) ∧
    (a.kind = ActuatorKind.VARIABLE → cmd.action = DeviceState.PARTIAL →
       cmd.value = none → failedWithError (a.execute_command cmd now)) ∧
    (a.kind = ActuatorKind.VARIABLE → ∀ v, cmd.value = some v →
       ¬(0 ≤ v ∧ v ≤ 100) → failedWithError (a.execute_command cmd now)) := by
  refine ⟨?_, ?_, ?_, ?_, ?_⟩
  · intro hk hact
    have he : a.executeImpl cmd =
        .error ("Dispositivo " ++ a.device_id ++ " suporta apenas estados LIGADO/DESLIGADO") := by
      simp [Actuator.executeImpl, hk, hact]
    rw [failedWithError, execute_command_of_impl_error a cmd now hid _ he]
    exact ⟨rfl, _, rfl, rfl⟩
  · intro hk hv
    by_cases hact : cmd.action = DeviceState.PARTIAL
    · have he : a.executeImpl cmd =
          .error ("Dispositivo " ++ a.device_id ++ " suporta apenas estados LIGADO/DESLIGADO") := by
        simp [Actuator.executeImpl, hk, hact]
      rw [failedWithError, execute_command_of_impl_error a cmd now hid _ he]
      exact ⟨rfl, _, rfl, rfl⟩
    · have he : a.executeImpl cmd =
          .error ("Dispositivo " ++ a.device_id ++ " não aceita parâmetro de valor") := by
        simp [Actuator.executeImpl, hk, hact, hv]
      rw [failedWithError, execute_command_of_impl_error a cmd now hid _ he]
      exact ⟨rfl, _, rfl, rfl⟩
  · intro hk hact v hv h0 h1
    have he : a.executeImpl cmd = .ok () := by
      simp [Actuator.executeImpl, hk, hv, h0, h1]
    rw [execute_command_of_impl_ok a cmd now hid he]
    exact ⟨rfl, hact, hv⟩
  · intro hk hact hv
    have he : a.executeImpl cmd = .error "Estado parcial requer um valor" := by
      simp [Actuator.executeImpl, hk, hact, hv]
    rw [failedWithError, execute_command_of_impl_error a cmd now hid _ he]
    exact ⟨rfl, _, rfl, rfl⟩
  · intro hk v hv hb
    have he : a.executeImpl cmd = .error ("Valor inválido: " ++ toString v) := by
      simp [Actuator.executeImpl, hk, hv, hb]
    rw [failedWithError, execute_command_of_impl_error a cmd now hid _ he]
    exact ⟨rfl, _, rfl, rfl⟩

/-- C5 witness: a binary heater rejects a PARTIAL command (ending in ERROR
with the failure recorded), while a variable fan accepts PARTIAL at 50 %. -/
theorem actuator_capability_validation_witness :
    failedWithError
      ((mkActuator "HTR001" DeviceType.HEATER ActuatorKind.BINARY).execute_command
        ⟨"HTR001", DeviceState.PARTIAL, none, 1⟩ 1) ∧
    ((mkActuator "FAN001" DeviceType.EXHAUST_FAN ActuatorKind.VARIABLE).execute_command
        ⟨"FAN001", DeviceState.PARTIAL, some 50, 1⟩ 1).1 =
      Except.ok
        (((mkActuator "FAN001" DeviceType.EXHAUST_FAN ActuatorKind.VARIABLE).execute_command
          ⟨"FAN001", DeviceState.PARTIAL, some 50, 1⟩ 1).2.status) :=
  ⟨(actuator_capability_validation
      (mkActuator "HTR001" DeviceType.HEATER ActuatorKind.BINARY)
      ⟨"HTR001", DeviceState.PARTIAL, none, 1⟩ 1 rfl).1 rfl rfl,
   ((actuator_capability_validation
      (mkActuator "FAN001" DeviceType.EXHAUST_FAN ActuatorKind.VARIABLE)
      ⟨"FAN001", DeviceState.PARTIAL, some 50, 1⟩ 1 rfl).2.2.1 rfl rfl 50 rfl
      (by decide) (by decide)).1⟩

/-- A registry of 4 fans in which FAN002's command execution raises: FAN002
was registered as a binary-capability actuator, so its apply step rejects the
PARTIAL fan-speed command (the spec's "one fan's command execution raises"
scenario). -/
def faultyFanController : DeviceController :=
  { DeviceController.init with
    fans := [mkActuator "FAN001" DeviceType.EXHAUST_FAN ActuatorKind.VARIABLE,
             mkActuator "FAN002" DeviceType.EXHAUST_FAN ActuatorKind.BINARY,
             mkActuator "FAN003" DeviceType.EXHAUST_FAN ActuatorKind.VARIABLE,
             mkActuator "FAN004" DeviceType.EXHAUST_FAN ActuatorKind.VARIABLE] }

/-- C3 counterexample: (i) at speed 150 the `DeviceCommand` construction
inside `set_fan_speeds` raises `ValueError`, which the `except DeviceError`
handler does not catch — the exception escapes, refuting "for every speed
value ... no exception escapes"; (ii) in a 4-fan registry where FAN002's
execution raises, FAN002's result entry is its post-failure ERROR status,
(iii) which differs from its pre-failure status — refuting "the failing fan's
entry shows its pre-failure status". -/
theorem set_fan_speeds_claim_counterexample :
    (DeviceController.init.set_fan_speeds 150 1).1 =
      Except.error "Invalid command value: 150" ∧
    (faultyFanController.set_fan_speeds 50 1).1 =
      Except.ok
        [("FAN001", ⟨"FAN001", DeviceType.EXHAUST_FAN, DeviceState.PARTIAL, some 50, 1, none⟩),
         ("FAN002", ⟨"FAN002", DeviceType.EXHAUST_FAN, DeviceState.ERROR, none, 0,
            some "Dispositivo FAN002 suporta apenas estados LIGADO/DESLIGADO"⟩),
         ("FAN003", ⟨"FAN003", DeviceType.EXHAUST_FAN, DeviceState.PARTIAL, some 50, 1, none⟩),
         ("FAN004", ⟨"FAN004", DeviceType.EXHAUST_FAN, DeviceState.PARTIAL, some 50, 1, none⟩)] ∧
    (⟨"FAN002", DeviceType.EXHAUST_FAN, DeviceState.ERROR, none, 0,
        some "Dispositivo FAN002 suporta apenas estados LIGADO/DESLIGADO"⟩ : DeviceStatus) ≠
      (mkActuator "FAN002" DeviceType.EXHAUST_FAN ActuatorKind.BINARY).status :=
  ⟨rfl, rfl, by decide⟩

/-- C3 (amended): for every speed in [0,100], `set_fan_speeds` on the default
registry of 4 fans returns one (fan id, status) pair per fan in registry
order with no exception escaping; and in a 4-fan registry where one fan's
command execution raises, the other three entries show the new PARTIAL(speed)
status while the failing fan's entry shows its current status after the
failure was recorded (state ERROR with the message, value and timestamp
unchanged). Speeds outside [0,100] instead escape with a `ValueError` from
command construction (see the counterexample). -/
theorem set_fan_speeds_batch (speed : ℚ) (now : Nat)
    (h0 : 0 ≤ speed) (h1 : speed ≤ 100) :
    (DeviceController.init.set_fan_speeds speed now).1 =
      Except.ok
        [("FAN001", ⟨"FAN001", DeviceType.EXHAUST_FAN, DeviceState.PARTIAL, some speed, now, none⟩),
         ("FAN002", ⟨"FAN002", DeviceType.EXHAUST_FAN, DeviceState.PARTIAL, some speed, now, none⟩),
         ("FAN003", ⟨"FAN003", DeviceType.EXHAUST_FAN, DeviceState.PARTIAL, some speed, now, none⟩),
         ("FAN004", ⟨"FAN004", DeviceType.EXHAUST_FAN, DeviceState.PARTIAL, some speed, now, none⟩)] ∧
    (faultyFanController.set_fan_speeds speed now).1 =
      Except.ok
        [("FAN001", ⟨"FAN001", DeviceType.EXHAUST_FAN, DeviceState.PARTIAL, some speed, now, none⟩),
         ("FAN002", ⟨"FAN002", DeviceType.EXHAUST_FAN, DeviceState.ERROR, none, 0,
            some "Dispositivo FAN002 suporta apenas estados LIGADO/DESLIGADO"⟩),
         ("FAN003", ⟨"FAN003", DeviceType.EXHAUST_FAN, DeviceState.PARTIAL, some speed, now, none⟩),
         ("FAN004", ⟨"FAN004", DeviceType.EXHAUST_FAN, DeviceState.PARTIAL, some speed, now, none⟩)] := by
  constructor <;>
    simp [DeviceController.set_fan_speeds, DeviceController.init, faultyFanController,
      batchLoop, mkActuator, DeviceCommand.make, Actuator.execute_command,
      Actuator.executeImpl, Actuator.status, h0, h1]

/-- C3 witness: speed 50 at time 1. -/
theorem set_fan_speeds_batch_witness :
    (DeviceController.init.set_fan_speeds 50 1).1 =
      Except.ok
        [("FAN001", ⟨"FAN001", DeviceType.EXHAUST_FAN, DeviceState.PARTIAL, some 50, 1, none⟩),
         ("FAN002", ⟨"FAN002", DeviceType.EXHAUST_FAN, DeviceState.PARTIAL, some 50, 1, none⟩),
         ("FAN003", ⟨"FAN003", DeviceType.EXHAUST_FAN, DeviceState.PARTIAL, some 50, 1, none⟩),
         ("FAN004", ⟨"FAN004", DeviceType.EXHAUST_FAN, DeviceState.PARTIAL, some 50, 1, none⟩)] ∧
    (faultyFanController.set_fan_speeds 50 1).1 =
      Except.ok
        [("FAN001", ⟨"FAN001", DeviceType.EXHAUST_FAN, DeviceState.PARTIAL, some 50, 1, none⟩),
         ("FAN002", ⟨"FAN002", DeviceType.EXHAUST_FAN, DeviceState.ERROR, none, 0,
            some "Dispositivo FAN002 suporta apenas estados LIGADO/DESLIGADO"⟩),
         ("FAN003", ⟨"FAN003", DeviceType.EXHAUST_FAN, DeviceState.PARTIAL, some 50, 1, none⟩),
         ("FAN004", ⟨"FAN004", DeviceType.EXHAUST_FAN, DeviceState.PARTIAL, some 50, 1, none⟩)] :=
  set_fan_speeds_batch 50 1 (by decide) (by decide)

end Aviary
